import Mathlib

/-!
Shallow embedding of the GPT-request dispatch layer of this repository
(`src/server/openai/request.ts`): the token-budget calculator
(`getMaxTokensForResponse`), the request dispatcher with its rate-limit
retry/backoff (`sendGptRequest`), the schema-validated extractor
(`sendGptRequestWithSchema`), and the vision adapter
(`sendGptVisionRequest`).

External collaborators are modelled as parameters:
- the `gpt-tokenizer` `encode` function only contributes `encode(text).length`,
  modelled as a parameter `encodeLen : String → Nat`;
- the `jsonc-parser` `parse` function never throws and returns an arbitrary
  JavaScript value (possibly `undefined`), modelled as a parameter
  `parseFn : String → Json` over a JSON value type with an `undef` constructor;
- the zod schema only contributes `safeParse`, which either succeeds with
  (possibly normalized) data or fails, modelled as `zodSchema : Json → Option Json`
  (`some` = success carrying the `.data`, `none` = failure);
- the provider endpoint is modelled as a list of per-attempt `Outcome`s:
  either a response (whose first choice content may be absent) or a thrown
  error, which either carries HTTP status 429 (`rateLimit`) or not (`other`).

Floating-point note: the only floating-point arithmetic on the control path is
`Math.ceil(maxContextTokens * 0.01)` and `Math.round(CONTEXT_WINDOW[model] / 2)`.
For the three context windows of the program (8192 and 128000) the JS double
computation yields exactly 82, 1280, 4096 and 64000, which coincide with the
exact rational values `⌈cw / 100⌉` and `cw / 2` used here.
-/

/-- The three known models: the keys of the `CONTEXT_WINDOW` table. -/
inductive Model
  | gpt4_0613
  | gpt4_vision_preview
  | gpt4_turbo_preview
  deriving DecidableEq

/-- `CONTEXT_WINDOW` table from the source. -/
def CONTEXT_WINDOW : Model → Nat
  | .gpt4_0613 => 8192
  | .gpt4_vision_preview => 128000
  | .gpt4_turbo_preview => 128000

/-- `MAX_OUTPUT` table from the source (gpt-4-turbo-preview and
gpt-4-vision-preview have a 4K max_tokens limit despite a 128K window). -/
def MAX_OUTPUT : Model → Nat
  | .gpt4_0613 => 8192
  | .gpt4_vision_preview => 4096
  | .gpt4_turbo_preview => 4096

/-- `Math.ceil(maxContextTokens * 0.01)`: 1% of the context window, rounded up.
For the context windows of this program (8192, 128000) the JS double
computation gives 82 and 1280, equal to `⌈cw / 100⌉` computed here. -/
def paddingFor (model : Model) : Nat :=
  (CONTEXT_WINDOW model + 99) / 100

/-- The `try` body of `getMaxTokensForResponse`: computes
`maxContextTokens - numberOfInputTokens - padding`, throws the
"input too large" error when that is ≤ 0, and otherwise returns
`Math.min(maxTokensForResponse, MAX_OUTPUT[model])`.
`numberOfInputTokens` stands for `encode(inputText).length`. -/
def getMaxTokensForResponseTry (numberOfInputTokens : Nat) (model : Model) :
    Except String Int :=
  let maxContextTokens := CONTEXT_WINDOW model
  let padding := paddingFor model
  let maxTokensForResponse : Int :=
    (maxContextTokens : Int) - numberOfInputTokens - padding
  if maxTokensForResponse ≤ 0 then
    Except.error "Input text is too large to fit within the context window."
  else
    Except.ok (min maxTokensForResponse (MAX_OUTPUT model : Int))

/-- `getMaxTokensForResponse`: the `catch` in the source catches the function's
own throw, so the function never fails; on the "input too large" condition it
returns `Math.round(CONTEXT_WINDOW[model] / 2)` (exact, both windows are even). -/
def getMaxTokensForResponse (numberOfInputTokens : Nat) (model : Model) : Int :=
  match getMaxTokensForResponseTry numberOfInputTokens model with
  | .ok v => v
  | .error _ => ((CONTEXT_WINDOW model / 2 : Nat) : Int)

/-- One typed content block of a chat message (`{type: "text"|"image_url", ...}`). -/
inductive ContentPart
  | text (text : String)
  | image_url (url : String) (detail : String)
  deriving DecidableEq

/-- A chat message content: either a plain string or a list of typed blocks. -/
inductive MessageContent
  | str (s : String)
  | parts (ps : List ContentPart)
  deriving DecidableEq

/-- A `ChatCompletionMessageParam`: role plus content. -/
structure ChatMessage where
  role : String
  content : MessageContent
  deriving DecidableEq

/-- The request handed to `openai.chat.completions.create` (temperature is
passed through unchanged and never inspected, so it is not carried here). -/
structure OutgoingRequest where
  model : Model
  messages : List ChatMessage
  max_tokens : Int
  deriving DecidableEq

/-- An error thrown by the provider call: either it carries
`response.status === 429` (`rateLimit`) or it does not (`other`). -/
inductive GptError
  | rateLimit
  | other (message : String)
  deriving DecidableEq

/-- One provider outcome for one network attempt: a response whose first
choice content is `content` (maybe absent), or a thrown error. -/
inductive Outcome
  | success (content : Option String)
  | failure (e : GptError)
  deriving DecidableEq

deriving instance DecidableEq for Except

/-- Observable trace of one `sendGptRequest` call: its result (returned
content or propagated error), the network requests issued in order, and the
`setTimeout` delays waited in order (one per rate-limit retry). -/
structure RunTrace where
  result : Except GptError (Option String)
  requests : List OutgoingRequest
  delays : List Nat
  deriving DecidableEq

/-- The message sequence built by `sendGptRequest`: `[system, user]`, with
`imagePrompt` unshifted to the front when present. -/
def buildMessages (systemPrompt userPrompt : String)
    (imagePrompt : Option ChatMessage) : List ChatMessage :=
  let messages : List ChatMessage :=
    [{ role := "system", content := .str systemPrompt },
     { role := "user", content := .str userPrompt }]
  match imagePrompt with
  | some ip => ip :: messages
  | none => messages

/-- `sendGptRequest`, run against the listed provider outcomes (one per
network attempt; the empty list cannot arise from the real provider and is
mapped to a non-429 error). Mirrors the source exactly: the token budget is
computed over `userPrompt + systemPrompt`; on an error the call rethrows when
`retries === 0 || status !== 429`, and otherwise waits `delay` ms and calls
itself with `retries - 1` and `delay * 2` — passing neither `imagePrompt` nor
`model`, which therefore reset to their defaults `null` and
`"gpt-4-turbo-preview"` on every retry. -/
def sendGptRequest (encodeLen : String → Nat) (userPrompt systemPrompt : String)
    (retries delay : Nat) (imagePrompt : Option ChatMessage) (model : Model)
    (outcomes : List Outcome) : RunTrace :=
  match outcomes with
  | [] => { result := .error (.other "no provider outcome"), requests := [], delays := [] }
  | o :: rest =>
    let max_tokens :=
      getMaxTokensForResponse (encodeLen (userPrompt ++ systemPrompt)) model
    let req : OutgoingRequest :=
      { model := model,
        messages := buildMessages systemPrompt userPrompt imagePrompt,
        max_tokens := max_tokens }
    match o with
    | .success content => { result := .ok content, requests := [req], delays := [] }
    | .failure e =>
      if retries = 0 ∨ e ≠ .rateLimit then
        { result := .error e, requests := [req], delays := [] }
      else
        let t := sendGptRequest encodeLen userPrompt systemPrompt
          (retries - 1) (delay * 2) none .gpt4_turbo_preview rest
        { result := t.result, requests := req :: t.requests, delays := delay :: t.delays }

/-- A JavaScript value as produced by the `jsonc-parser` `parse` call (which
never throws): `undef` stands for `undefined` on an unparseable input. -/
inductive Json
  | undef
  | null
  | bool (b : Bool)
  | num (n : Int)
  | str (s : String)
  | arr (elems : List Json)
  | obj (fields : List (String × Json))

/-- What a successful extractor attempt returns: the single validated value,
or (for an array response) the list of validated/normalized elements. -/
inductive ExtractResult
  | single (value : Json)
  | list (values : List Json)

/-- The backtick character. -/
def backtickChar : Char :=
  Char.ofNat 96

/-- Splits a character list at newline characters. -/
def splitOnNewline (cs : List Char) : List (List Char) :=
  match cs with
  | [] => [[]]
  | c :: rest =>
    let r := splitOnNewline rest
    if c = '\n' then [] :: r
    else (c :: r.headD []) :: r.tail

/-- Whether a line is a markdown fence line: after discarding leading
whitespace it starts with three backticks. -/
def isFenceLine (line : List Char) : Bool :=
  (line.dropWhile Char.isWhitespace).take 3 =
    [backtickChar, backtickChar, backtickChar]

/-- Joins lines back together with newline separators. -/
def joinLines : List (List Char) → List Char
  | [] => []
  | [l] => l
  | l :: rest => l ++ '\n' :: joinLines rest

/-- Modelled from the spec: `removeMarkdownCodeblocks` is imported from
`../utils`, whose file is not part of the sources here. Per the spec it
strips markdown code-fencing from the text: every fence line (a line whose
trimmed form starts with triple backticks) is removed and the remaining
lines are joined back with newlines. -/
def removeMarkdownCodeblocks (text : String) : String :=
  String.mk (joinLines ((splitOnNewline text.data).filter (fun l => ¬ isFenceLine l)))

/-- The body of one iteration of the `sendGptRequestWithSchema` loop, applied
to the result of its `sendGptRequest` call. A thrown dispatcher error is
caught by the iteration's own `catch` (so it fails the attempt); a `null` or
empty-string response fails the attempt (`if (!gptResponse)`); otherwise the
markdown fencing is stripped, the text is parsed, and either every element of
an array validates (returning their `.data` in order) or the single value
validates (returning its `.data`). -/
def extractAttempt (parseFn : String → Json) (zodSchema : Json → Option Json)
    (dispatched : Except GptError (Option String)) : Except String ExtractResult :=
  match dispatched with
  | .error .rateLimit => .error "provider error"
  | .error (.other m) => .error m
  | .ok none => .error "Empty response from GPT"
  | .ok (some s) =>
    if s = "" then .error "Empty response from GPT"
    else
      let gptResponse := removeMarkdownCodeblocks s
      let extractedInfo := parseFn gptResponse
      match extractedInfo with
      | .arr elems =>
        let validatedInfo := elems.map zodSchema
        if 0 < (validatedInfo.filter (fun r => r.isNone)).length then
          .error "Invalid response from GPT - object is not able to be parsed using the provided schema"
        else
          .ok (.list (validatedInfo.filterMap id))
      | v =>
        match zodSchema v with
        | some data => .ok (.single data)
        | none =>
          .error "Invalid response from GPT - object is not able to be parsed using the provided schema"

/-- Observable trace of one `sendGptRequestWithSchema` call: its result, the
number of `sendGptRequest` calls made (one per loop iteration), and, per
call, the rate-limit backoff delays incurred inside that call. -/
structure ExtractTrace where
  result : Except String ExtractResult
  calls : Nat
  nestedDelays : List (List Nat)

/-- The `while (retries < maxRetries)` loop of `sendGptRequestWithSchema`,
with `fuel = maxRetries - retries` iterations left. Each iteration calls
`sendGptRequest(userPrompt, systemPrompt, temperature, baseEventData)` — the
remaining parameters take their defaults `retries = 10`, `delay = 60000`,
`imagePrompt = null`, `model = "gpt-4-turbo-preview"`. `attemptOutcomes`
lists the provider outcomes consumed by each successive `sendGptRequest`
call. When the loop exhausts its iterations the function throws
`Max retries exceeded for GPT request: <userPrompt>`. -/
def sendGptRequestWithSchemaGo (encodeLen : String → Nat) (parseFn : String → Json)
    (zodSchema : Json → Option Json) (userPrompt systemPrompt : String)
    (attemptOutcomes : List (List Outcome)) (fuel : Nat) : ExtractTrace :=
  match fuel with
  | 0 =>
    { result := .error ("Max retries exceeded for GPT request: " ++ userPrompt),
      calls := 0, nestedDelays := [] }
  | f + 1 =>
    let t := sendGptRequest encodeLen userPrompt systemPrompt 10 60000 none
      .gpt4_turbo_preview (attemptOutcomes.headD [])
    match extractAttempt parseFn zodSchema t.result with
    | .ok r => { result := .ok r, calls := 1, nestedDelays := [t.delays] }
    | .error _ =>
      let rest := sendGptRequestWithSchemaGo encodeLen parseFn zodSchema
        userPrompt systemPrompt attemptOutcomes.tail f
      { result := rest.result, calls := rest.calls + 1,
        nestedDelays := t.delays :: rest.nestedDelays }

/-- `sendGptRequestWithSchema` with retry bound `maxRetries` (default 3 at
the source's call sites). -/
def sendGptRequestWithSchema (encodeLen : String → Nat) (parseFn : String → Json)
    (zodSchema : Json → Option Json) (userPrompt systemPrompt : String)
    (attemptOutcomes : List (List Outcome)) (maxRetries : Nat) : ExtractTrace :=
  sendGptRequestWithSchemaGo encodeLen parseFn zodSchema userPrompt systemPrompt
    attemptOutcomes maxRetries

/-- Modelled from the spec: `parseTemplate("dev", "vision", "user", {})` loads
the fixed instructional text of the vision template; `parseTemplate` lives in
`../utils`, whose file is not part of the sources here, so the text itself is
opaque — no claim depends on its value, only on its placement. -/
def visionTemplate : String :=
  "vision user template"

/-- The image message built by `sendGptVisionRequest`: a user message whose
content is a high-detail `image_url` block paired with the fixed
instructional text block. -/
def visionImagePrompt (snapshotUrl : String) : ChatMessage :=
  { role := "user",
    content := .parts
      [ .image_url snapshotUrl "high",
        .text visionTemplate ] }

/-- `sendGptVisionRequest`: when `snapshotUrl` is non-empty it switches the
model to `"gpt-4-vision-preview"` and builds the image prompt, then forwards
everything to `sendGptRequest`. -/
def sendGptVisionRequest (encodeLen : String → Nat)
    (userPrompt systemPrompt snapshotUrl : String) (retries delay : Nat)
    (outcomes : List Outcome) : RunTrace :=
  let pick : Model × Option ChatMessage :=
    if 0 < snapshotUrl.length then
      (.gpt4_vision_preview, some (visionImagePrompt snapshotUrl))
    else
      (.gpt4_turbo_preview, none)
  sendGptRequest encodeLen userPrompt systemPrompt retries delay pick.2 pick.1 outcomes

/-! ## Helper lemmas -/

/-- The first network request of a dispatcher call on a non-empty outcome
list is always issued: it carries the selected model, the built message
sequence, and the computed token budget. -/
theorem sendGptRequest_head_req (encodeLen : String → Nat) (userPrompt systemPrompt : String)
    (retries delay : Nat) (imagePrompt : Option ChatMessage) (model : Model)
    (o : Outcome) (rest : List Outcome) :
    (sendGptRequest encodeLen userPrompt systemPrompt retries delay imagePrompt model
        (o :: rest)).requests.head? =
      some { model := model,
             messages := buildMessages systemPrompt userPrompt imagePrompt,
             max_tokens := getMaxTokensForResponse (encodeLen (userPrompt ++ systemPrompt)) model } := by
  cases o with
  | success c => simp [sendGptRequest]
  | failure e =>
    by_cases hc : retries = 0 ∨ e ≠ .rateLimit
    · simp only [sendGptRequest, if_pos hc]
      simp
    · simp only [sendGptRequest, if_neg hc]
      simp

/-- A positive budget is bounded by `contextWindow - inputTokens - padding`. -/
theorem getMaxTokensForResponse_le (n : Nat) (model : Model)
    (h : 0 < (CONTEXT_WINDOW model : Int) - n - paddingFor model) :
    getMaxTokensForResponse n model ≤ (CONTEXT_WINDOW model : Int) - n - paddingFor model := by
  have h2 : ¬ ((CONTEXT_WINDOW model : Int) - n - paddingFor model ≤ 0) := by omega
  unfold getMaxTokensForResponse getMaxTokensForResponseTry
  simp only [if_neg h2]
  exact min_le_left _ _

/-- When the schema rejects every value, mapping it over a list leaves only
failed validations. -/
theorem filter_none_length (zodSchema : Json → Option Json)
    (hschema : ∀ j, zodSchema j = none) (elems : List Json) :
    ((elems.map zodSchema).filter (fun r => r.isNone)).length = elems.length := by
  induction elems with
  | nil => rfl
  | cons e es ih => simp [hschema, ih]

/-- When the schema rejects every value and the parsed value is never the
empty array, every extractor attempt fails. -/
theorem extractAttempt_fails (parseFn : String → Json) (zodSchema : Json → Option Json)
    (hschema : ∀ j, zodSchema j = none) (hparse : ∀ s, parseFn s ≠ .arr [])
    (d : Except GptError (Option String)) :
    ∃ msg, extractAttempt parseFn zodSchema d = .error msg := by
  cases d with
  | error e => cases e <;> exact ⟨_, rfl⟩
  | ok c =>
    cases c with
    | none => exact ⟨_, rfl⟩
    | some s =>
      by_cases hs : s = ""
      · subst hs
        exact ⟨_, rfl⟩
      · unfold extractAttempt
        simp only [if_neg hs]
        split
        case _ elems heq =>
          have hne : elems ≠ [] := by
            intro hnil
            exact hparse _ (hnil ▸ heq)
          have hlen : 0 < ((elems.map zodSchema).filter (fun r => r.isNone)).length := by
            rw [filter_none_length zodSchema hschema]
            cases elems with
            | nil => exact absurd rfl hne
            | cons x xs => simp
          rw [if_pos hlen]
          exact ⟨_, rfl⟩
        case _ v hnotarr =>
          rw [hschema]
          exact ⟨_, rfl⟩

/-- With the schema rejecting everything and no empty-array parses, the
extractor loop burns all its fuel, one dispatcher call per iteration, and
ends with the max-retries error carrying the user prompt. -/
theorem schemaGo_all_fail (encodeLen : String → Nat) (parseFn : String → Json)
    (zodSchema : Json → Option Json) (userPrompt systemPrompt : String)
    (hschema : ∀ j, zodSchema j = none) (hparse : ∀ s, parseFn s ≠ .arr [])
    (atts : List (List Outcome)) (fuel : Nat) :
    (sendGptRequestWithSchemaGo encodeLen parseFn zodSchema userPrompt systemPrompt
        atts fuel).result = .error ("Max retries exceeded for GPT request: " ++ userPrompt) ∧
    (sendGptRequestWithSchemaGo encodeLen parseFn zodSchema userPrompt systemPrompt
        atts fuel).calls = fuel := by
  induction fuel generalizing atts with
  | zero => exact ⟨rfl, rfl⟩
  | succ f ih =>
    unfold sendGptRequestWithSchemaGo
    obtain ⟨msg, hmsg⟩ := extractAttempt_fails parseFn zodSchema hschema hparse
      (sendGptRequest encodeLen userPrompt systemPrompt 10 60000 none .gpt4_turbo_preview
        (atts.headD [])).result
    simp only [hmsg]
    obtain ⟨h1, h2⟩ := ih atts.tail
    exact ⟨h1, by rw [h2]⟩

/-- When every element passes validation, no failures survive the filter. -/
theorem filter_all_some_length (zodSchema : Json → Option Json) (elems : List Json)
    (hvalid : ∀ e ∈ elems, zodSchema e ≠ none) :
    ((elems.map zodSchema).filter (fun r => r.isNone)).length = 0 := by
  induction elems with
  | nil => rfl
  | cons e es ih =>
    have he : (zodSchema e).isNone = false := by
      cases hz : zodSchema e with
      | none => exact absurd hz (hvalid e (by simp))
      | some v => rfl
    simp [he, ih (fun x hx => hvalid x (by simp [hx]))]

/-! ## Claims -/

/-- C1: for every input token count and every known model, when the estimated
input token count plus the 1% padding leaves a positive remainder within the
context window, `getMaxTokensForResponse` returns exactly
`min(contextWindow - inputTokens - padding, maxOutputTokens)`, and this value
is positive. -/
theorem C1_token_budget_formula (n : Nat) (model : Model)
    (h : 0 < (CONTEXT_WINDOW model : Int) - n - paddingFor model) :
    getMaxTokensForResponse n model =
      min ((CONTEXT_WINDOW model : Int) - n - paddingFor model) (MAX_OUTPUT model : Int) ∧
    0 < getMaxTokensForResponse n model := by
  have h2 : ¬ ((CONTEXT_WINDOW model : Int) - n - paddingFor model ≤ 0) := by omega
  have hout : 0 < (MAX_OUTPUT model : Int) := by cases model <;> decide
  unfold getMaxTokensForResponse getMaxTokensForResponseTry
  simp only [if_neg h2]
  refine ⟨trivial, ?_⟩
  omega

/-- Witness for C1 at 1000 input tokens on gpt-4-turbo-preview. -/
theorem C1_token_budget_formula_witness :
    0 < (CONTEXT_WINDOW .gpt4_turbo_preview : Int) - 1000 - paddingFor .gpt4_turbo_preview ∧
    (getMaxTokensForResponse 1000 .gpt4_turbo_preview =
      min ((CONTEXT_WINDOW .gpt4_turbo_preview : Int) - 1000 - paddingFor .gpt4_turbo_preview)
        (MAX_OUTPUT .gpt4_turbo_preview : Int) ∧
     0 < getMaxTokensForResponse 1000 .gpt4_turbo_preview) :=
  ⟨by decide, C1_token_budget_formula 1000 .gpt4_turbo_preview (by decide)⟩

/-- C2: for every input whose estimated token count plus padding meets or
exceeds the context window (`contextWindow - inputTokens - padding ≤ 0`), the
budget computation raises the "input too large" condition, the caught
fallback is `round(contextWindow / 2)`, and that fallback is exactly the
token budget carried by the network request the dispatcher then issues. -/
theorem C2_overflow_fallback (encodeLen : String → Nat) (userPrompt systemPrompt : String)
    (model : Model) (retries delay : Nat) (imagePrompt : Option ChatMessage)
    (o : Outcome) (rest : List Outcome)
    (h : (CONTEXT_WINDOW model : Int) - encodeLen (userPrompt ++ systemPrompt) - paddingFor model ≤ 0) :
    getMaxTokensForResponseTry (encodeLen (userPrompt ++ systemPrompt)) model =
      .error "Input text is too large to fit within the context window." ∧
    getMaxTokensForResponse (encodeLen (userPrompt ++ systemPrompt)) model =
      ((CONTEXT_WINDOW model / 2 : Nat) : Int) ∧
    (sendGptRequest encodeLen userPrompt systemPrompt retries delay imagePrompt model
        (o :: rest)).requests.head?.map (fun r => r.max_tokens) =
      some ((CONTEXT_WINDOW model / 2 : Nat) : Int) := by
  have h1 : getMaxTokensForResponseTry (encodeLen (userPrompt ++ systemPrompt)) model =
      .error "Input text is too large to fit within the context window." := by
    unfold getMaxTokensForResponseTry
    simp only [if_pos h]
  have h2 : getMaxTokensForResponse (encodeLen (userPrompt ++ systemPrompt)) model =
      ((CONTEXT_WINDOW model / 2 : Nat) : Int) := by
    unfold getMaxTokensForResponse
    rw [h1]
  refine ⟨h1, h2, ?_⟩
  cases o with
  | success c => simp [sendGptRequest, h2]
  | failure e =>
    by_cases hc : retries = 0 ∨ e ≠ .rateLimit
    · simp only [sendGptRequest, if_pos hc]
      simp [h2]
    · simp only [sendGptRequest, if_neg hc]
      simp [h2]

/-- Witness for C2 at 200000 input tokens on gpt-4-turbo-preview. -/
theorem C2_overflow_fallback_witness :
    ((CONTEXT_WINDOW .gpt4_turbo_preview : Int) -
        (fun _ : String => 200000) ("u" ++ "s") - paddingFor .gpt4_turbo_preview ≤ 0) ∧
    (getMaxTokensForResponseTry ((fun _ : String => 200000) ("u" ++ "s")) .gpt4_turbo_preview =
      .error "Input text is too large to fit within the context window." ∧
    getMaxTokensForResponse ((fun _ : String => 200000) ("u" ++ "s")) .gpt4_turbo_preview =
      ((CONTEXT_WINDOW .gpt4_turbo_preview / 2 : Nat) : Int) ∧
    (sendGptRequest (fun _ => 200000) "u" "s" 10 60000 none .gpt4_turbo_preview
        [.success none]).requests.head?.map (fun r => r.max_tokens) =
      some ((CONTEXT_WINDOW .gpt4_turbo_preview / 2 : Nat) : Int)) :=
  ⟨by decide,
   C2_overflow_fallback (fun _ => 200000) "u" "s" .gpt4_turbo_preview 10 60000 none
     (.success none) [] (by decide)⟩

/-- C3 counterexample: the claim says that whenever the invariant
`max_tokens + inputTokens + padding ≤ contextWindow` would be violated, the
call fails before any network request is made. At 200000 input tokens on
gpt-4-turbo-preview the dispatcher instead issues one network request with
the fallback budget 64000, and `64000 + 200000 + padding` exceeds the
128000-token context window — so a request is made while the invariant is
violated. -/
theorem C3_request_invariant_counterexample :
    (sendGptRequest (fun _ => 200000) "u" "s" 10 60000 none .gpt4_turbo_preview
        [.success none]).requests.map (fun r => r.max_tokens) = [(64000 : Int)] ∧
    ¬ ((64000 : Int) + 200000 + (paddingFor .gpt4_turbo_preview : Int) ≤
        (CONTEXT_WINDOW .gpt4_turbo_preview : Int)) := by
  decide

/-- C3 amended: when the computed budget
`contextWindow - inputTokens - padding` is positive, the issued request does
satisfy the invariant `max_tokens + inputTokens + padding ≤ contextWindow`;
when the budget is not positive the call does not fail — it still issues the
network request, carrying the fallback budget `round(contextWindow / 2)`. -/
theorem C3_request_invariant_amended (encodeLen : String → Nat)
    (userPrompt systemPrompt : String) (retries delay : Nat)
    (imagePrompt : Option ChatMessage) (model : Model)
    (o : Outcome) (rest : List Outcome) :
    (0 < (CONTEXT_WINDOW model : Int) - encodeLen (userPrompt ++ systemPrompt) - paddingFor model →
      ∀ r : OutgoingRequest,
        (sendGptRequest encodeLen userPrompt systemPrompt retries delay imagePrompt model
            (o :: rest)).requests.head? = some r →
        r.max_tokens + encodeLen (userPrompt ++ systemPrompt) + paddingFor model ≤
          (CONTEXT_WINDOW model : Int)) ∧
    ((CONTEXT_WINDOW model : Int) - encodeLen (userPrompt ++ systemPrompt) - paddingFor model ≤ 0 →
      (sendGptRequest encodeLen userPrompt systemPrompt retries delay imagePrompt model
          (o :: rest)).requests.head?.map (fun r => r.max_tokens) =
        some ((CONTEXT_WINDOW model / 2 : Nat) : Int)) := by
  constructor
  · intro hpos r hr
    rw [sendGptRequest_head_req] at hr
    obtain rfl : _ = r := Option.some.inj hr
    have := getMaxTokensForResponse_le (encodeLen (userPrompt ++ systemPrompt)) model hpos
    simp only []
    omega
  · intro hneg
    rw [sendGptRequest_head_req]
    have h1 : getMaxTokensForResponseTry (encodeLen (userPrompt ++ systemPrompt)) model =
        .error "Input text is too large to fit within the context window." := by
      unfold getMaxTokensForResponseTry
      simp only [if_pos hneg]
    have h2 : getMaxTokensForResponse (encodeLen (userPrompt ++ systemPrompt)) model =
        ((CONTEXT_WINDOW model / 2 : Nat) : Int) := by
      unfold getMaxTokensForResponse
      rw [h1]
    simp [h2]

/-- Witness for C3 amended: the within-window branch at 1000 input tokens
(budget 4096 satisfies the invariant) and the overflow branch at 200000
input tokens (request still issued, budget 64000), both on
gpt-4-turbo-preview. -/
theorem C3_request_invariant_amended_witness :
    (0 < (CONTEXT_WINDOW .gpt4_turbo_preview : Int) -
        (fun _ : String => 1000) ("u" ++ "s") - paddingFor .gpt4_turbo_preview) ∧
    ((sendGptRequest (fun _ => 1000) "u" "s" 10 60000 none .gpt4_turbo_preview
        [.success none]).requests.head? =
      some { model := .gpt4_turbo_preview,
             messages := [{ role := "system", content := .str "s" },
                          { role := "user", content := .str "u" }],
             max_tokens := (4096 : Int) }) ∧
    ((4096 : Int) + (fun _ : String => 1000) ("u" ++ "s") + paddingFor .gpt4_turbo_preview ≤
      (CONTEXT_WINDOW .gpt4_turbo_preview : Int)) ∧
    ((CONTEXT_WINDOW .gpt4_turbo_preview : Int) -
        (fun _ : String => 200000) ("u" ++ "s") - paddingFor .gpt4_turbo_preview ≤ 0) ∧
    ((sendGptRequest (fun _ => 200000) "u" "s" 10 60000 none .gpt4_turbo_preview
        [.success none]).requests.head?.map (fun r => r.max_tokens) =
      some ((CONTEXT_WINDOW .gpt4_turbo_preview / 2 : Nat) : Int)) :=
  ⟨by decide, by decide,
   (C3_request_invariant_amended (fun _ => 1000) "u" "s" 10 60000 none .gpt4_turbo_preview
       (.success none) []).1 (by decide)
     { model := .gpt4_turbo_preview,
       messages := [{ role := "system", content := .str "s" },
                    { role := "user", content := .str "u" }],
       max_tokens := (4096 : Int) } (by decide),
   by decide,
   (C3_request_invariant_amended (fun _ => 200000) "u" "s" 10 60000 none .gpt4_turbo_preview
       (.success none) []).2 (by decide)⟩

/-- C4: for every outcome sequence whose attempts 1 and 2 fail rate-limited
(429) and whose attempt 3 succeeds, with `retries = 10` and `delay = 60000`,
the controller performs exactly 2 retries (3 network attempts), waiting
60000 ms before the second attempt and 120000 ms (the doubled delay) before
the third, and returns the successful content of attempt 3. -/
theorem C4_rate_limit_backoff (encodeLen : String → Nat) (userPrompt systemPrompt : String)
    (imagePrompt : Option ChatMessage) (model : Model) (c : Option String)
    (rest : List Outcome) :
    (sendGptRequest encodeLen userPrompt systemPrompt 10 60000 imagePrompt model
        (.failure .rateLimit :: .failure .rateLimit :: .success c :: rest)).result = .ok c ∧
    (sendGptRequest encodeLen userPrompt systemPrompt 10 60000 imagePrompt model
        (.failure .rateLimit :: .failure .rateLimit :: .success c :: rest)).delays =
      [60000, 120000] ∧
    (sendGptRequest encodeLen userPrompt systemPrompt 10 60000 imagePrompt model
        (.failure .rateLimit :: .failure .rateLimit :: .success c :: rest)).requests.length = 3 := by
  refine ⟨?_, ?_, ?_⟩ <;> simp [sendGptRequest]

/-- C5: a non-rate-limit error, or any error once the retry counter is zero,
is propagated unchanged with zero further retries: no delay is waited and no
further network attempt is made. -/
theorem C5_error_propagation (encodeLen : String → Nat) (userPrompt systemPrompt : String)
    (retries delay : Nat) (imagePrompt : Option ChatMessage) (model : Model)
    (e : GptError) (rest : List Outcome)
    (h : e ≠ .rateLimit ∨ retries = 0) :
    (sendGptRequest encodeLen userPrompt systemPrompt retries delay imagePrompt model
        (.failure e :: rest)).result = .error e ∧
    (sendGptRequest encodeLen userPrompt systemPrompt retries delay imagePrompt model
        (.failure e :: rest)).delays = [] ∧
    (sendGptRequest encodeLen userPrompt systemPrompt retries delay imagePrompt model
        (.failure e :: rest)).requests.length = 1 := by
  have hc : retries = 0 ∨ e ≠ .rateLimit := h.symm
  unfold sendGptRequest
  simp [if_pos hc]

/-- Witness for C5: a non-429 error on the first attempt with 10 retries
remaining propagates immediately. -/
theorem C5_error_propagation_witness :
    ((GptError.other "boom" ≠ .rateLimit ∨ (10 : Nat) = 0) ∧
    ((sendGptRequest (fun _ => 0) "u" "s" 10 60000 none .gpt4_turbo_preview
        [.failure (.other "boom")]).result = .error (.other "boom") ∧
    (sendGptRequest (fun _ => 0) "u" "s" 10 60000 none .gpt4_turbo_preview
        [.failure (.other "boom")]).delays = [] ∧
    (sendGptRequest (fun _ => 0) "u" "s" 10 60000 none .gpt4_turbo_preview
        [.failure (.other "boom")]).requests.length = 1)) :=
  ⟨Or.inl (by decide),
   C5_error_propagation (fun _ => 0) "u" "s" 10 60000 none .gpt4_turbo_preview
     (.other "boom") [] (Or.inl (by decide))⟩

/-- C6: when the schema rejects every value (and no response parses to the
empty array, whose elementwise validation would pass vacuously), with
`maxRetries = 3` the extractor makes exactly 3 dispatcher calls and then
raises the "max retries exceeded" error carrying the original user prompt.
Empty responses and dispatcher errors also count as failed attempts. -/
theorem C6_extractor_max_retries (encodeLen : String → Nat) (parseFn : String → Json)
    (zodSchema : Json → Option Json) (userPrompt systemPrompt : String)
    (atts : List (List Outcome))
    (hschema : ∀ j, zodSchema j = none) (hparse : ∀ s, parseFn s ≠ .arr []) :
    (sendGptRequestWithSchema encodeLen parseFn zodSchema userPrompt systemPrompt
        atts 3).result = .error ("Max retries exceeded for GPT request: " ++ userPrompt) ∧
    (sendGptRequestWithSchema encodeLen parseFn zodSchema userPrompt systemPrompt
        atts 3).calls = 3 :=
  schemaGo_all_fail encodeLen parseFn zodSchema userPrompt systemPrompt hschema hparse atts 3

/-- Witness for C6: an always-rejecting schema against three non-array
responses exhausts all 3 attempts. -/
theorem C6_extractor_max_retries_witness :
    (∀ j : Json, (fun _ : Json => (none : Option Json)) j = none) ∧
    (∀ s : String, (fun _ : String => Json.null) s ≠ .arr []) ∧
    ((sendGptRequestWithSchema (fun _ => 0) (fun _ => Json.null) (fun _ => none) "u" "s"
        [[.success (some "x")], [.success (some "x")], [.success (some "x")]] 3).result =
      .error ("Max retries exceeded for GPT request: " ++ "u") ∧
    (sendGptRequestWithSchema (fun _ => 0) (fun _ => Json.null) (fun _ => none) "u" "s"
        [[.success (some "x")], [.success (some "x")], [.success (some "x")]] 3).calls = 3) :=
  ⟨fun _ => rfl, fun _ h => Json.noConfusion h,
   C6_extractor_max_retries (fun _ => 0) (fun _ => Json.null) (fun _ => none) "u" "s"
     [[.success (some "x")], [.success (some "x")], [.success (some "x")]]
     (fun _ => rfl) (fun _ h => Json.noConfusion h)⟩

/-- C7 counterexample: the claim says no rate-limit retry with exponential
delay is nested inside an extractor attempt. In this concrete run the single
extractor attempt hits a 429 on its first provider outcome and the nested
`sendGptRequest` (invoked with its defaults `retries = 10`, `delay = 60000`)
waits 60000 ms and retries inside that one attempt: the nested delay list of
attempt 1 is `[60000]`, not empty. -/
theorem C7_nested_retry_counterexample :
    (sendGptRequestWithSchema (fun _ => 0) (fun _ => Json.null) (fun j => some j) "u" "s"
        [[.failure .rateLimit, .success (some "x")]] 3).nestedDelays = [[60000]] ∧
    ([60000] : List Nat) ≠ [] :=
  ⟨rfl, by decide⟩

/-- C7 amended: each extractor attempt invokes `sendGptRequest` with the
default retry budget (`retries = 10`, `delay = 60000`), so rate-limit retry
with exponential delay IS nested inside an extractor attempt: whenever the
first attempt hits a 429 followed by a successful outcome, that attempt
incurs a nested 60000 ms backoff instead of failing. -/
theorem C7_nested_retry_amended (encodeLen : String → Nat) (parseFn : String → Json)
    (zodSchema : Json → Option Json) (userPrompt systemPrompt : String)
    (c : Option String) (restOutcomes : List Outcome) (restAtts : List (List Outcome))
    (f : Nat) :
    (sendGptRequestWithSchema encodeLen parseFn zodSchema userPrompt systemPrompt
        ((.failure .rateLimit :: .success c :: restOutcomes) :: restAtts)
        (f + 1)).nestedDelays.head? = some [60000] := by
  have hdel : (sendGptRequest encodeLen userPrompt systemPrompt 10 60000 none
      .gpt4_turbo_preview (.failure .rateLimit :: .success c :: restOutcomes)).delays =
      [60000] := by
    simp [sendGptRequest]
  unfold sendGptRequestWithSchema sendGptRequestWithSchemaGo
  simp only [List.headD_cons]
  split
  · simp [hdel]
  · simp [hdel]

/-- C8: for every dispatcher response that, after the markdown fencing is
stripped, parses as a JSON array all of whose elements pass the schema, the
extractor returns on that single attempt the list of validated/normalized
elements (`List.filterMap zodSchema elems`, which under all-success maps each
element to its validated data) in the original array order. -/
theorem C8_array_success (encodeLen : String → Nat) (parseFn : String → Json)
    (zodSchema : Json → Option Json) (userPrompt systemPrompt s : String)
    (elems : List Json) (restOutcomes : List Outcome) (restAtts : List (List Outcome))
    (f : Nat) (hs : s ≠ "")
    (hparse : parseFn (removeMarkdownCodeblocks s) = .arr elems)
    (hvalid : ∀ e ∈ elems, zodSchema e ≠ none) :
    (sendGptRequestWithSchema encodeLen parseFn zodSchema userPrompt systemPrompt
        ((.success (some s) :: restOutcomes) :: restAtts) (f + 1)).result =
      .ok (.list (elems.filterMap zodSchema)) ∧
    (sendGptRequestWithSchema encodeLen parseFn zodSchema userPrompt systemPrompt
        ((.success (some s) :: restOutcomes) :: restAtts) (f + 1)).calls = 1 := by
  have hres : (sendGptRequest encodeLen userPrompt systemPrompt 10 60000 none
      .gpt4_turbo_preview (.success (some s) :: restOutcomes)).result = .ok (some s) := by
    simp [sendGptRequest]
  have hatt : extractAttempt parseFn zodSchema (.ok (some s)) =
      .ok (.list (elems.filterMap zodSchema)) := by
    unfold extractAttempt
    simp only [if_neg hs, hparse]
    rw [if_neg (by simp [filter_all_some_length zodSchema elems hvalid])]
    simp [List.filterMap_map]
  unfold sendGptRequestWithSchema sendGptRequestWithSchemaGo
  simp only [List.headD_cons, hres, hatt]
  exact ⟨trivial, trivial⟩

/-- Witness for C8: a response parsing to the array `[1, 2]` under an
accept-all schema is returned element-for-element on the first attempt. -/
theorem C8_array_success_witness :
    ("x" ≠ "") ∧
    ((fun _ : String => Json.arr [Json.num 1, Json.num 2]) (removeMarkdownCodeblocks "x") =
      Json.arr [Json.num 1, Json.num 2]) ∧
    (∀ e ∈ [Json.num 1, Json.num 2], (fun j : Json => some j) e ≠ none) ∧
    ((sendGptRequestWithSchema (fun _ => 0) (fun _ => Json.arr [Json.num 1, Json.num 2])
        (fun j => some j) "u" "s" [[.success (some "x")]] (2 + 1)).result =
      .ok (.list (List.filterMap (fun j => some j) [Json.num 1, Json.num 2])) ∧
    (sendGptRequestWithSchema (fun _ => 0) (fun _ => Json.arr [Json.num 1, Json.num 2])
        (fun j => some j) "u" "s" [[.success (some "x")]] (2 + 1)).calls = 1) :=
  ⟨by decide, rfl, fun e _ h => Option.noConfusion h,
   C8_array_success (fun _ => 0) (fun _ => Json.arr [Json.num 1, Json.num 2])
     (fun j => some j) "u" "s" "x" [Json.num 1, Json.num 2] [] [] 2
     (by decide) rfl (fun e _ h => Option.noConfusion h)⟩

/-- C9: with a non-empty image URL the vision adapter selects
gpt-4-vision-preview and the first message of the outgoing request is the
image message (the high-detail `image_url` block paired with the fixed
instructional text block, as `visionImagePrompt` shows), followed by the
system then the user message; with no image URL it selects
gpt-4-turbo-preview and sends exactly two messages, system then user. -/
theorem C9_vision_adapter (encodeLen : String → Nat)
    (userPrompt systemPrompt snapshotUrl : String) (retries delay : Nat)
    (o : Outcome) (rest : List Outcome) :
    (0 < snapshotUrl.length →
      (sendGptVisionRequest encodeLen userPrompt systemPrompt snapshotUrl retries delay
          (o :: rest)).requests.head?.map (fun r => r.model) = some .gpt4_vision_preview ∧
      (sendGptVisionRequest encodeLen userPrompt systemPrompt snapshotUrl retries delay
          (o :: rest)).requests.head?.map (fun r => r.messages) =
        some [visionImagePrompt snapshotUrl,
              { role := "system", content := .str systemPrompt },
              { role := "user", content := .str userPrompt }]) ∧
    (snapshotUrl.length = 0 →
      (sendGptVisionRequest encodeLen userPrompt systemPrompt snapshotUrl retries delay
          (o :: rest)).requests.head?.map (fun r => r.model) = some .gpt4_turbo_preview ∧
      (sendGptVisionRequest encodeLen userPrompt systemPrompt snapshotUrl retries delay
          (o :: rest)).requests.head?.map (fun r => r.messages) =
        some [{ role := "system", content := .str systemPrompt },
              { role := "user", content := .str userPrompt }]) := by
  constructor
  · intro hpos
    unfold sendGptVisionRequest
    simp only [if_pos hpos]
    rw [sendGptRequest_head_req]
    simp [buildMessages]
  · intro hzero
    have hneg : ¬ 0 < snapshotUrl.length := by omega
    unfold sendGptVisionRequest
    simp only [if_neg hneg]
    rw [sendGptRequest_head_req]
    simp [buildMessages]

/-- Witness for C9: one call with image URL "http" and one with the empty
URL. -/
theorem C9_vision_adapter_witness :
    (0 < ("http" : String).length) ∧
    ((sendGptVisionRequest (fun _ => 0) "u" "s" "http" 10 60000
        [.success none]).requests.head?.map (fun r => r.model) = some .gpt4_vision_preview ∧
     (sendGptVisionRequest (fun _ => 0) "u" "s" "http" 10 60000
        [.success none]).requests.head?.map (fun r => r.messages) =
       some [visionImagePrompt "http",
             { role := "system", content := .str "s" },
             { role := "user", content := .str "u" }]) ∧
    (("" : String).length = 0) ∧
    ((sendGptVisionRequest (fun _ => 0) "u" "s" "" 10 60000
        [.success none]).requests.head?.map (fun r => r.model) = some .gpt4_turbo_preview ∧
     (sendGptVisionRequest (fun _ => 0) "u" "s" "" 10 60000
        [.success none]).requests.head?.map (fun r => r.messages) =
       some [{ role := "system", content := .str "s" },
             { role := "user", content := .str "u" }]) :=
  ⟨by decide,
   (C9_vision_adapter (fun _ => 0) "u" "s" "http" 10 60000 (.success none) []).1 (by decide),
   by decide,
   (C9_vision_adapter (fun _ => 0) "u" "s" "" 10 60000 (.success none) []).2 (by decide)⟩

/-- C10: when a rate-limit (429) error occurs with retries remaining, the
retried attempt is re-issued without the image block and with the default
text model gpt-4-turbo-preview, regardless of the image prompt and model the
caller selected: the second issued request has model gpt-4-turbo-preview and
exactly the two plain messages system then user. -/
theorem C10_retry_resets_image_and_model (encodeLen : String → Nat)
    (userPrompt systemPrompt : String) (retries delay : Nat)
    (imagePrompt : Option ChatMessage) (model : Model)
    (o2 : Outcome) (rest : List Outcome) (h : retries ≠ 0) :
    ((sendGptRequest encodeLen userPrompt systemPrompt retries delay imagePrompt model
        (.failure .rateLimit :: o2 :: rest)).requests.map (fun r => r.model))[1]? =
      some .gpt4_turbo_preview ∧
    ((sendGptRequest encodeLen userPrompt systemPrompt retries delay imagePrompt model
        (.failure .rateLimit :: o2 :: rest)).requests.map (fun r => r.messages))[1]? =
      some [{ role := "system", content := .str systemPrompt },
            { role := "user", content := .str userPrompt }] := by
  have hc : ¬ (retries = 0 ∨ GptError.rateLimit ≠ GptError.rateLimit) := by simp [h]
  have hh := sendGptRequest_head_req encodeLen userPrompt systemPrompt (retries - 1)
    (delay * 2) none .gpt4_turbo_preview o2 rest
  cases hq : (sendGptRequest encodeLen userPrompt systemPrompt (retries - 1) (delay * 2)
      none .gpt4_turbo_preview (o2 :: rest)).requests with
  | nil => rw [hq] at hh; simp at hh
  | cons a l =>
    rw [hq] at hh
    simp only [List.head?_cons, Option.some.injEq] at hh
    unfold sendGptRequest
    simp only [if_neg hc, hq, hh]
    simp [buildMessages]

/-- Witness for C10: a vision-model call with an image prompt whose first
outcome is a 429 re-issues its second request with gpt-4-turbo-preview and
no image message. -/
theorem C10_retry_resets_image_and_model_witness :
    ((10 : Nat) ≠ 0) ∧
    (((sendGptRequest (fun _ => 0) "u" "s" 10 60000
        (some (visionImagePrompt "http")) .gpt4_vision_preview
        (.failure .rateLimit :: .success none :: [])).requests.map (fun r => r.model))[1]? =
      some .gpt4_turbo_preview ∧
    ((sendGptRequest (fun _ => 0) "u" "s" 10 60000
        (some (visionImagePrompt "http")) .gpt4_vision_preview
        (.failure .rateLimit :: .success none :: [])).requests.map (fun r => r.messages))[1]? =
      some [{ role := "system", content := .str "s" },
            { role := "user", content := .str "u" }]) :=
  ⟨by decide,
   C10_retry_resets_image_and_model (fun _ => 0) "u" "s" 10 60000
     (some (visionImagePrompt "http")) .gpt4_vision_preview (.success none) [] (by decide)⟩
